import Mathlib

/-!
# Odysway data-fetching layer

A shallow embedding of three pieces of the repository:

* `server/api/v1/booking/[slug]/dates.get.js` : the booking-dates handler,
* `composables/useSearchData.js` : the search-data cache,
* `utils/performanceMonitor.js` : the performance monitor.

JavaScript numbers are IEEE 754 doubles. `Dbl` embeds them with their rounding (to
nearest, ties to even); the handler computes on integer-valued doubles, embedded as
integers whose sums are rounded the same way. The sign of zero is not kept. Console
output is not part of the embedding.
-/

namespace Odysway

/-! ## Double-precision numbers -/

/-- An IEEE 754 double: a finite value `mant * 2 ^ exp` (kept with an odd mantissa,
zero as `fin 0 0`), an infinity, or `NaN`. -/
inductive Dbl where
  | fin (mant : Int) (exp : Int)
  | inf (negative : Bool)
  | nan
  deriving DecidableEq, Repr

/-- The number of binary digits of `n` (0 for 0); the fuel bounds the recursion. -/
def bitLength : Nat → Nat → Nat
  | 0, _ => 0
  | fuel + 1, n => if n = 0 then 0 else bitLength fuel (n / 2) + 1

/-- Move the trailing zero bits of a mantissa into the exponent. -/
def stripZeros : Nat → Nat → Int → Nat × Int
  | 0, m, e => (m, e)
  | fuel + 1, m, e =>
    if m != 0 && m % 2 == 0 then stripZeros fuel (m / 2) (e + 1) else (m, e)

/-- Quotient, remainder and divisor of `n / (d * 2 ^ k)`, for any sign of `k`. -/
def scaledQuotient (n d : Nat) (k : Int) : Nat × Nat × Nat :=
  if 0 ≤ k then (n / (d * 2 ^ k.toNat), n % (d * 2 ^ k.toNat), d * 2 ^ k.toNat)
  else (n * 2 ^ (-k).toNat / d, n * 2 ^ (-k).toNat % d, d)

/-- The double nearest to the exact value `(n / d) * 2 ^ e` with the given sign
(`d` positive): 53 bits of mantissa, fewer below the exponent -1074, ties to the even
mantissa, infinity from `2 ^ 1024` on. -/
def Dbl.round (negative : Bool) (n d : Nat) (e : Int) : Dbl :=
  if n = 0 then Dbl.fin 0 0
  else
    let k0 : Int := (bitLength n n : Int) - (bitLength d d : Int) - 52
    let k1 : Int := if (scaledQuotient n d k0).1 < 2 ^ 52 then k0 - 1 else k0
    let k : Int := if e + k1 < -1074 then -1074 - e else k1
    let q := scaledQuotient n d k
    let m : Nat :=
      if 2 * q.2.1 > q.2.2 || (2 * q.2.1 == q.2.2 && q.1 % 2 == 1) then q.1 + 1 else q.1
    if e + k > 971 || (e + k == 971 && 2 ^ 53 ≤ m) then Dbl.inf negative
    else
      let c := stripZeros 64 m (e + k)
      if c.1 = 0 then Dbl.fin 0 0
      else Dbl.fin (if negative then -(c.1 : Int) else (c.1 : Int)) c.2

/-- Addition of doubles: the exact sum, rounded. -/
def Dbl.add : Dbl → Dbl → Dbl
  | Dbl.fin m1 e1, Dbl.fin m2 e2 =>
    let e := min e1 e2
    let s : Int := m1 * 2 ^ (e1 - e).toNat + m2 * 2 ^ (e2 - e).toNat
    Dbl.round (decide (s < 0)) s.natAbs 1 e
  | Dbl.inf s, Dbl.inf t => if s = t then Dbl.inf s else Dbl.nan
  | Dbl.inf s, Dbl.fin _ _ => Dbl.inf s
  | Dbl.fin _ _, Dbl.inf t => Dbl.inf t
  | _, _ => Dbl.nan

/-- Negation of a double. -/
def Dbl.neg : Dbl → Dbl
  | Dbl.fin m e => Dbl.fin (-m) e
  | Dbl.inf s => Dbl.inf (!s)
  | Dbl.nan => Dbl.nan

/-- Division of doubles: the exact quotient, rounded; a zero divisor counts as +0. -/
def Dbl.div : Dbl → Dbl → Dbl
  | Dbl.fin m1 e1, Dbl.fin m2 e2 =>
    if m2 = 0 then (if m1 = 0 then Dbl.nan else Dbl.inf (decide (m1 < 0)))
    else Dbl.round (decide (m1 < 0) != decide (m2 < 0)) m1.natAbs m2.natAbs (e1 - e2)
  | Dbl.fin _ _, Dbl.inf _ => Dbl.fin 0 0
  | Dbl.inf s, Dbl.fin m _ => Dbl.inf (s != decide (m < 0))
  | _, _ => Dbl.nan

/-- The double nearest to a natural number. -/
def Dbl.ofNat (n : Nat) : Dbl := Dbl.round false n 1 0

/-- The exact value of a finite double. -/
def Dbl.toRat : Dbl → Option ℚ
  | Dbl.fin m e => some ((m : ℚ) * (2 : ℚ) ^ e)
  | Dbl.inf _ => none
  | Dbl.nan => none

instance : Zero Dbl := ⟨Dbl.fin 0 0⟩

instance : Add Dbl := ⟨Dbl.add⟩

instance : Sub Dbl := ⟨fun a b => Dbl.add a (Dbl.neg b)⟩

instance : Div Dbl := ⟨Dbl.div⟩

instance : NatCast Dbl := ⟨Dbl.ofNat⟩

instance (n : Nat) : OfNat Dbl n := ⟨Dbl.ofNat n⟩

/-! ## JavaScript values -/

/-- Primitive JavaScript values. A number is an integer-valued double (`num n`, with
`n` the value), an infinity or `NaN`. -/
inductive JsVal where
  | undefined
  | null
  | bool (b : Bool)
  | num (n : Int)
  | inf (negative : Bool)
  | nan
  | str (s : String)
  deriving DecidableEq, Repr

/-- A plain object whose properties hold primitives, as an association list
(the first binding of a key is the property). -/
abbrev JsObject := List (String × JsVal)

/-- A property value of a travel-date row: a primitive, or an array of plain objects
(the shape of a nested one-to-many relation). -/
inductive JsField where
  | prim (v : JsVal)
  | rows (xs : List JsObject)
  deriving DecidableEq, Repr

/-- A travel-date row as the query returns it. -/
abbrev Item := List (String × JsField)

/-- Errors a JavaScript evaluation can throw in the embedded code. -/
inductive JsError where
  | typeError
  deriving DecidableEq, Repr

/-- Property read `o.k` on a plain object: `undefined` when the key is absent. -/
def prop (o : JsObject) (k : String) : JsVal :=
  match o.lookup k with
  | some v => v
  | none => JsVal.undefined

/-- Property read `item.k` on a row: `undefined` when the key is absent. -/
def fieldOf (item : Item) (k : String) : JsField :=
  match item.lookup k with
  | some v => v
  | none => JsField.prim JsVal.undefined

/-- Property write `o[k] = v` (also the last step of an object literal with a spread):
an existing key keeps its place and takes the new value, a new key goes last. -/
def setProp {β : Type} (o : List (String × β)) (k : String) (v : β) : List (String × β) :=
  match o with
  | [] => [(k, v)]
  | (k1, v1) :: tl => if k1 == k then (k, v) :: tl else (k1, v1) :: setProp tl k v

/-- JavaScript truthiness (ToBoolean) of a primitive. -/
def truthy : JsVal → Bool
  | JsVal.undefined => false
  | JsVal.null => false
  | JsVal.bool b => b
  | JsVal.num n => n != 0
  | JsVal.inf _ => true
  | JsVal.nan => false
  | JsVal.str s => s != ""

/-- Truthiness of a property value: every array is truthy. -/
def JsField.truthy : JsField → Bool
  | JsField.prim v => Odysway.truthy v
  | JsField.rows _ => true

/-- ToString of a primitive. An integer prints in decimal digits, as the source does
below 10 ^ 21. -/
def jsToString : JsVal → String
  | JsVal.undefined => "undefined"
  | JsVal.null => "null"
  | JsVal.bool true => "true"
  | JsVal.bool false => "false"
  | JsVal.num n => toString n
  | JsVal.inf false => "Infinity"
  | JsVal.inf true => "-Infinity"
  | JsVal.nan => "NaN"
  | JsVal.str s => s

/-- ToNumber of a primitive that is not a string: a `num`, an `inf` or `nan`.
The string case is never reached from `jsAdd`. -/
def jsToNumber : JsVal → JsVal
  | JsVal.undefined => JsVal.nan
  | JsVal.null => JsVal.num 0
  | JsVal.bool b => JsVal.num (if b then 1 else 0)
  | JsVal.num n => JsVal.num n
  | JsVal.inf s => JsVal.inf s
  | JsVal.nan => JsVal.nan
  | JsVal.str _ => JsVal.nan

/-- The double nearest to an integer: the integer itself up to 2 ^ 53 in absolute
value, where every integer is a double, and its rounding beyond. -/
def roundDouble (x : Int) : JsVal :=
  if x.natAbs ≤ 2 ^ 53 then JsVal.num x
  else
    match Dbl.round (decide (x < 0)) x.natAbs 1 0 with
    | Dbl.fin m e => JsVal.num (m * 2 ^ e.toNat)
    | Dbl.inf s => JsVal.inf s
    | Dbl.nan => JsVal.nan

/-- Addition of two numbers: the exact sum of two integer-valued doubles, rounded to
a double. -/
def addNumbers : JsVal → JsVal → JsVal
  | JsVal.num x, JsVal.num y => roundDouble (x + y)
  | JsVal.inf s, JsVal.inf t => if s = t then JsVal.inf s else JsVal.nan
  | JsVal.inf s, JsVal.num _ => JsVal.inf s
  | JsVal.num _, JsVal.inf t => JsVal.inf t
  | _, _ => JsVal.nan

/-- The binary `+` of JavaScript on primitives: concatenation as soon as one operand
is a string, addition of doubles otherwise. -/
def jsAdd (a b : JsVal) : JsVal :=
  match a, b with
  | JsVal.str s, _ => JsVal.str (s ++ jsToString b)
  | _, JsVal.str t => JsVal.str (jsToString a ++ t)
  | _, _ => addNumbers (jsToNumber a) (jsToNumber b)

/-- ToPrimitive of a property value: an array of plain objects becomes the
comma-joined string of its elements. -/
def JsField.toPrimitive : JsField → JsVal
  | JsField.prim v => v
  | JsField.rows xs => JsVal.str (",".intercalate (xs.map fun _ => "[object Object]"))

/-! ## The booking-dates handler (`dates.get.js`) -/

/-- The callback of `booked_dates.reduce` (lines 32-40). -/
def reducer (sum : JsVal) (bookedDate : JsObject) : JsVal :=
  if prop bookedDate "booked_places" == JsVal.num 0 && !truthy (prop bookedDate "deleted") then
    jsAdd sum (JsVal.num 1)
  else
    jsAdd sum (prop bookedDate "booked_places")

/-- The value the handler gives `nbInterestedBy` (lines 32-44) for a row and its
booked dates. -/
def nbInterestedBy (item : Item) (booked_dates : List JsObject) : JsVal :=
  let folded := booked_dates.foldl reducer (JsVal.num 0)
  if (fieldOf item "custom_display").truthy then
    jsAdd folded (fieldOf item "displayed_booked_seat").toPrimitive
  else folded

/-- The callback of `data.map` (lines 29-49): splits `booked_dates` from the rest,
folds the booked dates, applies the custom-display override and rebuilds the row.
Calling `reduce` on anything but an array throws. -/
def processItem (item : Item) : Except JsError Item :=
  match item.lookup "booked_dates" with
  | some (JsField.rows booked_dates) =>
    let rest := item.filter fun kv => kv.1 != "booked_dates"
    Except.ok (setProp rest "nbInterestedBy" (JsField.prim (nbInterestedBy item booked_dates)))
  | _ => Except.error JsError.typeError

/-- The array method `data.map(processItem)`: rows in order, the first throw aborts. -/
def mapProcess : List Item → Except JsError (List Item)
  | [] => Except.ok []
  | item :: tl =>
    match processItem item with
    | Except.error e => Except.error e
    | Except.ok r =>
      match mapProcess tl with
      | Except.error e => Except.error e
      | Except.ok rs => Except.ok (r :: rs)

/-- What the awaited query yields: `data` (an array of rows or `null`) and `error`
(an error object or `null`); an error object is always truthy. -/
structure QueryResult (ε : Type) where
  data : Option (List Item)
  error : Option ε

/-- What the handler returns: the object `{ error }` or the processed array. -/
inductive Response (ε : Type) where
  | errorObject (error : ε)
  | array (processedData : List Item)

/-- The event handler from the point where the query has been awaited (lines 24-50). -/
def handler {ε : Type} (q : QueryResult ε) : Except JsError (Response ε) :=
  match q.error with
  | some error => Except.ok (Response.errorObject error)
  | none =>
    match q.data with
    | none => Except.error JsError.typeError
    | some data =>
      match mapProcess data with
      | Except.error e => Except.error e
      | Except.ok processedData => Except.ok (Response.array processedData)

/-- The columns the query selects for each nested booked date (lines 14-18). -/
def bookedDatesSelect : List String := ["id", "booked_places", "travel_date_id"]

/-- The projection of one stored booked-date row on the selected columns. -/
def selectBookedDate (row : JsObject) : JsObject :=
  row.filter fun kv => bookedDatesSelect.contains kv.1

/-- The row the query returns for a travel date: all its own columns (`*`) and the
nested relation `booked_dates` holding the projected booked-date rows. -/
def selectTravelDate (travelDate : Item) (bookedRows : List JsObject) : Item :=
  travelDate ++ [("booked_dates", JsField.rows (bookedRows.map selectBookedDate))]

/-- The interest count in the words of the data model: zero-place rows that are not
deleted count one each, the other rows add their places, and the displayed-seat
override is added when custom display is set. Rows are pairs (places, deleted). -/
def specInterestCount (rows : List (Int × Bool)) (customDisplay : Bool)
    (displayedBookedSeat : Int) : Int :=
  ((rows.filter fun r => r.1 == 0 && !r.2).length : Int)
    + ((rows.filter fun r => r.1 != 0).map fun r => r.1).sum
    + (if customDisplay then displayedBookedSeat else 0)

/-- The value of `nbInterestedBy` in a processed row. -/
def nbInterestedByOf (out : Item) : Option JsField := out.lookup "nbInterestedBy"

/-! ## The search-data cache (`useSearchData.js`) -/

/-- What a content query resolves with and what a cache entry holds: `null`, one
record (`first()`) or an array of records (`all()`). -/
inductive Content where
  | null
  | record (r : JsObject)
  | records (rs : List JsObject)
  deriving DecidableEq, Repr

/-- Truthiness of a cached value: only `null` is falsy, records and arrays are truthy. -/
def Content.truthy : Content → Bool
  | Content.null => false
  | Content.record _ => true
  | Content.records _ => true

/-- The status strings of an entry. -/
inductive Status where
  | idle
  | pending
  | success
  | error
  deriving DecidableEq, Repr

/-- The four entries of the cache. -/
inductive Key where
  | destinations
  | regions
  | searchFieldContent
  | contentText
  deriving DecidableEq, Repr

/-- One entry: the value ref, the status ref, and two counters that are not in the
source: how many times the entry's query has been invoked, and how many of these
queries have not settled yet. -/
structure Entry where
  value : Content
  status : Status
  queries : Nat
  inFlight : Nat
  deriving DecidableEq, Repr

/-- The shared state behind `useSearchData`. -/
structure SearchData where
  destinations : Entry
  regions : Entry
  searchFieldContent : Entry
  contentText : Entry
  deriving DecidableEq, Repr

/-- The state before any call: every value `null`, every status idle (lines 4-13). -/
def SearchData.initial : SearchData :=
  { destinations := { value := Content.null, status := Status.idle, queries := 0, inFlight := 0 }
    regions := { value := Content.null, status := Status.idle, queries := 0, inFlight := 0 }
    searchFieldContent := { value := Content.null, status := Status.idle, queries := 0, inFlight := 0 }
    contentText := { value := Content.null, status := Status.idle, queries := 0, inFlight := 0 } }

/-- Read the entry of a key. -/
def SearchData.entry (s : SearchData) : Key → Entry
  | Key.destinations => s.destinations
  | Key.regions => s.regions
  | Key.searchFieldContent => s.searchFieldContent
  | Key.contentText => s.contentText

/-- Replace the entry of a key. -/
def SearchData.setEntry (s : SearchData) (k : Key) (e : Entry) : SearchData :=
  match k with
  | Key.destinations => { s with destinations := e }
  | Key.regions => { s with regions := e }
  | Key.searchFieldContent => { s with searchFieldContent := e }
  | Key.contentText => { s with contentText := e }

/-- How the awaited query of a fetch settles. -/
inductive Outcome where
  | resolved (data : Content)
  | rejected (error : String)
  deriving DecidableEq, Repr

/-- The shape of what the query of each entry resolves with: `all()` gives an array,
`first()` gives one record, or `null` when the collection has none (lines 22-25,
44-46, 65, 84). -/
def canResolve : Key → Content → Bool
  | Key.destinations, Content.records _ => true
  | Key.regions, Content.records _ => true
  | Key.searchFieldContent, Content.record _ => true
  | Key.searchFieldContent, Content.null => true
  | Key.contentText, Content.record _ => true
  | Key.contentText, Content.null => true
  | _, _ => false

/-- How far a call of a fetch gets before it yields: it has returned the cached value,
or it is awaiting its query. -/
inductive Started where
  | returned (v : Content)
  | awaiting
  deriving DecidableEq, Repr

/-- A fetch from its call up to the `await`: return the cached value when it is truthy,
otherwise set the status to pending and invoke the query. The four fetch functions
differ only in the entry they use and in the query they send. -/
def fetchCall (k : Key) (s : SearchData) : SearchData × Started :=
  let e := s.entry k
  if e.value.truthy then (s, Started.returned e.value)
  else
    (s.setEntry k { e with status := Status.pending, queries := e.queries + 1,
                           inFlight := e.inFlight + 1 },
      Started.awaiting)

/-- A fetch from the moment its query settles: on a resolved query store the data, set
the status to success and return the data; on a rejected one set the status to error
and return `null`. -/
def fetchSettle (k : Key) (o : Outcome) (s : SearchData) : SearchData × Content :=
  let e := s.entry k
  match o with
  | Outcome.resolved data =>
    (s.setEntry k { e with value := data, status := Status.success, inFlight := e.inFlight - 1 },
      data)
  | Outcome.rejected _ =>
    (s.setEntry k { e with status := Status.error, inFlight := e.inFlight - 1 }, Content.null)

/-- A fetch run from its call to its return with nothing else happening to the cache
while it awaits, the query settling as `o`. What other calls and settlements do in
between is followed with `fetchCall`, `fetchSettle` and `step`. -/
def fetchEntry (k : Key) (o : Outcome) (s : SearchData) : SearchData × Content :=
  match fetchCall k s with
  | (s1, Started.returned v) => (s1, v)
  | (s1, Started.awaiting) => fetchSettle k o s1

/-- The function `fetchDestinations` (lines 16-36). -/
def fetchDestinations : Outcome → SearchData → SearchData × Content :=
  fetchEntry Key.destinations

/-- The function `fetchRegions` (lines 39-57). -/
def fetchRegions : Outcome → SearchData → SearchData × Content :=
  fetchEntry Key.regions

/-- The function `fetchSearchFieldContent` (lines 60-76). -/
def fetchSearchFieldContent : Outcome → SearchData → SearchData × Content :=
  fetchEntry Key.searchFieldContent

/-- The function `fetchContentText` (lines 79-95). -/
def fetchContentText : Outcome → SearchData → SearchData × Content :=
  fetchEntry Key.contentText

/-- The function `initializeSearchData` up to its `await` (lines 98-105): the four
fetches are called in order, each running up to its own `await`. -/
def initializeSearchData (s : SearchData) : SearchData :=
  let s := (fetchCall Key.destinations s).1
  let s := (fetchCall Key.regions s).1
  let s := (fetchCall Key.searchFieldContent s).1
  (fetchCall Key.contentText s).1

/-- Reset of one entry by `clearSearchData`: value `null`, status idle. Queries still
in flight are not cancelled. -/
def Entry.clear (e : Entry) : Entry :=
  { e with value := Content.null, status := Status.idle }

/-- The function `clearSearchData` (lines 108-117). -/
def clearSearchData (s : SearchData) : SearchData :=
  { destinations := s.destinations.clear
    regions := s.regions.clear
    searchFieldContent := s.searchFieldContent.clear
    contentText := s.contentText.clear }

/-- What can happen to the cache: a fetch is called, an awaited query settles,
`initializeSearchData` is called, `clearSearchData` is called. -/
inductive Event where
  | fetch (k : Key)
  | settle (k : Key) (o : Outcome)
  | init
  | clear
  deriving DecidableEq, Repr

/-- One event applied to the cache. A settlement without a query in flight does not
happen and leaves the state alone. -/
def step (s : SearchData) : Event → SearchData
  | Event.fetch k => (fetchCall k s).1
  | Event.settle k o => if (s.entry k).inFlight = 0 then s else (fetchSettle k o s).1
  | Event.init => initializeSearchData s
  | Event.clear => clearSearchData s

/-- A sequence of events applied in order. -/
def run (evs : List Event) (s : SearchData) : SearchData :=
  evs.foldl step s

/-- Whether an event starts no fetch of an entry that still has a query in flight. -/
def noOverlap (s : SearchData) : Event → Bool
  | Event.fetch k => (s.entry k).inFlight == 0
  | Event.settle _ _ => true
  | Event.init =>
    s.destinations.inFlight == 0 && s.regions.inFlight == 0
      && s.searchFieldContent.inFlight == 0 && s.contentText.inFlight == 0
  | Event.clear => true

/-- Whether along a sequence of events no fetch of an entry is started while an
earlier query of the same entry is still in flight. -/
def sequential : List Event → SearchData → Bool
  | [], _ => true
  | e :: evs, s => noOverlap s e && sequential evs (step s e)

/-! ## The performance monitor (`performanceMonitor.js`) -/

/-- The heap counters of `performance.memory` with the time of the snapshot. -/
structure MemorySnapshot where
  usedJSHeapSize : Nat
  totalJSHeapSize : Nat
  jsHeapSizeLimit : Nat
  timestamp : Nat
  deriving DecidableEq, Repr

/-- The metrics object (lines 3-8), over a number type `ν`. Objects are association
lists: the first binding of a name is the property. -/
structure Metrics (ν : Type) where
  pageLoadTimes : List (String × ν)
  componentRenderTimes : List (String × List ν)
  apiCallTimes : List (String × List ν)
  memoryUsage : List (String × MemorySnapshot)

/-- The metrics with every bucket empty. -/
def Metrics.empty {ν : Type} : Metrics ν :=
  { pageLoadTimes := [], componentRenderTimes := [], apiCallTimes := [], memoryUsage := [] }

/-- The samples stored under a name: the empty sequence when the name is absent. -/
def samplesOf {ν : Type} (times : List (String × List ν)) (name : String) : List ν :=
  match times.lookup name with
  | some xs => xs
  | none => []

/-- The statements `if (!times[name]) times[name] = []` and `times[name].push(t)`:
an array is truthy even when empty, so only an absent name gets a fresh array. -/
def pushSample {ν : Type} (times : List (String × List ν)) (name : String) (t : ν) :
    List (String × List ν) :=
  let times1 := if (times.lookup name).isNone then setProp times name [] else times
  setProp times1 name (samplesOf times1 name ++ [t])

/-- The mounted callback of `trackPageLoad` (lines 14-18); `startTime` was read at the
call and `now` is the clock at the callback. -/
def trackPageLoad {ν : Type} [Sub ν] (pageName : String) (startTime now : ν)
    (m : Metrics ν) : Metrics ν :=
  let loadTime := now - startTime
  { m with pageLoadTimes := setProp m.pageLoadTimes pageName loadTime }

/-- The mounted callback of `trackComponentRender` (lines 25-32). -/
def trackComponentRender {ν : Type} [Sub ν] (componentName : String) (startTime now : ν)
    (m : Metrics ν) : Metrics ν :=
  let renderTime := now - startTime
  { m with componentRenderTimes := pushSample m.componentRenderTimes componentName renderTime }

/-- The function `trackApiCall` (lines 36-53), `apiCall` settling as `result` at clock
`now`: a result is recorded and returned, an error is thrown again. -/
def trackApiCall {ν ε ρ : Type} [Sub ν] (apiName : String) (startTime now : ν)
    (result : Except ε ρ) (m : Metrics ν) : Metrics ν × Except ε ρ :=
  match result with
  | Except.ok r =>
    let callTime := now - startTime
    ({ m with apiCallTimes := pushSample m.apiCallTimes apiName callTime }, Except.ok r)
  | Except.error error => (m, Except.error error)

/-- The function `trackMemoryUsage` (lines 56-71); `memory` is `none` when the runtime
has no `performance.memory`, and the `timestamp` field of `memory` is `Date.now()`. -/
def trackMemoryUsage {ν : Type} (context : String) (memory : Option MemorySnapshot)
    (m : Metrics ν) : Metrics ν :=
  match memory with
  | some snapshot => { m with memoryUsage := setProp m.memoryUsage context snapshot }
  | none => m

/-- The object `getPerformanceSummary` returns. -/
structure Summary (ν : Type) where
  averagePageLoadTime : ν
  averageComponentRenderTime : ν
  averageApiCallTime : ν
  totalApiCalls : Nat
  totalComponents : Nat

/-- The expression `xs.reduce((a, b) => a + b, 0) / xs.length`. -/
def reduceAverage {ν : Type} [Zero ν] [Add ν] [Div ν] [NatCast ν] (xs : List ν) : ν :=
  xs.foldl (fun a b => a + b) 0 / (xs.length : ν)

/-- The function `getPerformanceSummary` (lines 74-104). `Object.values` is the list
of the bound values and `flat()` concatenates the arrays. -/
def getPerformanceSummary {ν : Type} [Zero ν] [Add ν] [Div ν] [NatCast ν]
    (m : Metrics ν) : Summary ν :=
  let pageLoadTimes := m.pageLoadTimes.map Prod.snd
  let allComponentTimes := (m.componentRenderTimes.map Prod.snd).flatten
  let allApiTimes := (m.apiCallTimes.map Prod.snd).flatten
  { averagePageLoadTime :=
      if pageLoadTimes.length > 0 then reduceAverage pageLoadTimes else 0
    averageComponentRenderTime :=
      if allComponentTimes.length > 0 then reduceAverage allComponentTimes else 0
    totalComponents := if allComponentTimes.length > 0 then allComponentTimes.length else 0
    averageApiCallTime := if allApiTimes.length > 0 then reduceAverage allApiTimes else 0
    totalApiCalls := if allApiTimes.length > 0 then allApiTimes.length else 0 }

/-- The function `clearMetrics` (lines 107-114). -/
def clearMetrics {ν : Type} (_m : Metrics ν) : Metrics ν := Metrics.empty

/-- The tracking steps other than `clearMetrics`. -/
inductive TrackStep (ν ε ρ : Type) where
  | pageLoad (pageName : String) (startTime now : ν)
  | componentRender (componentName : String) (startTime now : ν)
  | apiCall (apiName : String) (startTime now : ν) (result : Except ε ρ)
  | memoryUsage (context : String) (memory : Option MemorySnapshot)

/-- The metrics after a tracking step. -/
def TrackStep.apply {ν ε ρ : Type} [Sub ν] (m : Metrics ν) : TrackStep ν ε ρ → Metrics ν
  | TrackStep.pageLoad pageName startTime now => trackPageLoad pageName startTime now m
  | TrackStep.componentRender componentName startTime now =>
    trackComponentRender componentName startTime now m
  | TrackStep.apiCall apiName startTime now result =>
    (trackApiCall apiName startTime now result m).1
  | TrackStep.memoryUsage context memory => trackMemoryUsage context memory m

/-- The arithmetic mean of a sequence of rational samples. -/
def arithmeticMean (xs : List ℚ) : ℚ := xs.sum / (xs.length : ℚ)

/-- A booked-date object carrying the integer `booked_places` and the flag `deleted`
given by a pair (places, deleted). -/
def Carries (bookedDate : JsObject) (r : Int × Bool) : Prop :=
  prop bookedDate "booked_places" = JsVal.num r.1 ∧ prop bookedDate "deleted" = JsVal.bool r.2

/-- What one booked date (places, deleted) adds to the count: 1 for a kept row
without places, its places otherwise. -/
def stepValue (r : Int × Bool) : Int :=
  if r.1 == 0 && !r.2 then 1 else r.1

/-- Whether every running total of the fold, started at `a`, stays within 2 ^ 53 in
absolute value, the range where every integer is a double. -/
def safeSums (a : Int) : List (Int × Bool) → Bool
  | [] => true
  | r :: rs => decide ((a + stepValue r).natAbs ≤ 2 ^ 53) && safeSums (a + stepValue r) rs

/-- A travel-date row with one booking of 9007199254740991 places (2 ^ 53 - 1) and
two kept bookings without places. -/
def largeItem : Item :=
  [("id", JsField.prim (JsVal.num 9)),
   ("custom_display", JsField.prim (JsVal.bool false)),
   ("booked_dates", JsField.rows
      [[("booked_places", JsVal.num 9007199254740991), ("deleted", JsVal.bool false)],
       [("booked_places", JsVal.num 0), ("deleted", JsVal.bool false)],
       [("booked_places", JsVal.num 0), ("deleted", JsVal.bool false)]])]

/-- The travel-date row of the worked examples: the given flag and override, and the
bookings (0 places, kept), (2 places, kept), (0 places, deleted). -/
def exampleItem (customDisplay : Bool) : Item :=
  [("id", JsField.prim (JsVal.num 7)),
   ("custom_display", JsField.prim (JsVal.bool customDisplay)),
   ("displayed_booked_seat", JsField.prim (JsVal.num 10)),
   ("booked_dates", JsField.rows
      [[("booked_places", JsVal.num 0), ("deleted", JsVal.bool false)],
       [("booked_places", JsVal.num 2), ("deleted", JsVal.bool false)],
       [("booked_places", JsVal.num 0), ("deleted", JsVal.bool true)]])]

/-- A travel-date row whose single booking has 3 places and is deleted. -/
def exampleDeletedItem : Item :=
  [("id", JsField.prim (JsVal.num 8)),
   ("custom_display", JsField.prim (JsVal.bool false)),
   ("displayed_booked_seat", JsField.prim (JsVal.num 0)),
   ("booked_dates", JsField.rows [[("booked_places", JsVal.num 3), ("deleted", JsVal.bool true)]])]

/-- A stored booked date with no places that has been soft-deleted. -/
def storedDeletedInterest : JsObject :=
  [("id", JsVal.num 1), ("booked_places", JsVal.num 0), ("travel_date_id", JsVal.num 7),
   ("deleted", JsVal.bool true)]

/-- The answer of the query for one travel date whose only booked date is
`storedDeletedInterest`. -/
def deletedInterestResult : QueryResult String :=
  { data := some [selectTravelDate [("id", JsField.prim (JsVal.num 7)),
                                    ("custom_display", JsField.prim (JsVal.bool false))]
                    [storedDeletedInterest]]
    error := none }

/-- A row has its nested relation: `booked_dates` is an array of objects. -/
def HasBookedDates (item : Item) : Prop :=
  ∃ bds, item.lookup "booked_dates" = some (JsField.rows bds)

/-- The frame of one processed row: no `booked_dates`, an `nbInterestedBy`, and every
other property as in the input row. -/
def RowFrame (item out : Item) : Prop :=
  out.lookup "booked_dates" = none
    ∧ (∃ v, out.lookup "nbInterestedBy" = some v)
    ∧ ∀ k, k ≠ "booked_dates" → k ≠ "nbInterestedBy" → out.lookup k = item.lookup k

/-- A successful answer of two travel dates, for the worked example of the frame. -/
def twoRowsResult : QueryResult String :=
  { data := some [exampleItem false, exampleDeletedItem], error := none }

/-- A failed answer whose data would make the aggregation throw. -/
def failedResult : QueryResult String :=
  { data := some [[("id", JsField.prim (JsVal.num 7))]], error := some "connection refused" }

/-- The effect of `fetchCall` on the entry it works on. -/
def Entry.call (e : Entry) : Entry :=
  if e.value.truthy then e
  else { e with status := Status.pending, queries := e.queries + 1, inFlight := e.inFlight + 1 }

/-- The effect of `fetchSettle` on the entry it works on. -/
def Entry.settle (o : Outcome) (e : Entry) : Entry :=
  match o with
  | Outcome.resolved data =>
    { e with value := data, status := Status.success, inFlight := e.inFlight - 1 }
  | Outcome.rejected _ => { e with status := Status.error, inFlight := e.inFlight - 1 }

/-- The invariant of an entry along sequential runs: at most one query in flight, a
`null` value while it is in flight, and status success on every non-null value. -/
def Entry.Settled (e : Entry) : Prop :=
  e.inFlight ≤ 1 ∧ (e.inFlight = 1 → e.value = Content.null)
    ∧ (e.value ≠ Content.null → e.status = Status.success)

/-- An array of one destination record, as `all()` resolves with. -/
def peru : Content := Content.records [[("slug", JsVal.str "perou")]]

/-- Two overlapping calls of `fetchDestinations`: the first query resolves, the
second one rejects afterwards. -/
def overlappingFetches : List Event :=
  [Event.fetch Key.destinations, Event.fetch Key.destinations,
   Event.settle Key.destinations (Outcome.resolved peru),
   Event.settle Key.destinations (Outcome.rejected "network")]

/-- The cache while a second call of `fetchDestinations` still awaits its query: both
calls were made on a `null` value and the query of the first has resolved. -/
def secondStillAwaiting : SearchData :=
  run [Event.fetch Key.destinations, Event.fetch Key.destinations,
       Event.settle Key.destinations (Outcome.resolved peru)] SearchData.initial

/-- A sequential run: initialise, let the four queries settle, clear, fetch again. -/
def sequentialRun : List Event :=
  [Event.init,
   Event.settle Key.regions (Outcome.rejected "network"),
   Event.settle Key.destinations (Outcome.resolved peru),
   Event.settle Key.contentText (Outcome.resolved Content.null),
   Event.settle Key.searchFieldContent (Outcome.resolved (Content.record [("title", JsVal.str "Ou ?")])),
   Event.fetch Key.regions,
   Event.clear,
   Event.settle Key.regions (Outcome.resolved (Content.records [])),
   Event.fetch Key.destinations]

/-- The metrics after render times 10, 20 and 30 have been recorded for one
component. -/
def renderExample : Metrics Dbl :=
  trackComponentRender "Hero" 0 30
    (trackComponentRender "Hero" 0 20 (trackComponentRender "Hero" 0 10 Metrics.empty))

/-- The metrics after render times 10, 10 and 11 have been recorded for one
component. -/
def roundingExample : Metrics Dbl :=
  trackComponentRender "Hero" 0 11
    (trackComponentRender "Hero" 0 10 (trackComponentRender "Hero" 0 10 Metrics.empty))

/-- The metrics after the page `home` has been tracked once, with load time 100. -/
def pageExample : Metrics ℚ := trackPageLoad "home" 0 100 Metrics.empty

/-- The metrics holding two render samples, one API sample and one page-load time. -/
def mixedExample : Metrics ℚ :=
  { pageLoadTimes := [("home", 100)]
    componentRenderTimes := [("Hero", [10, 20])]
    apiCallTimes := [("dates", [35])]
    memoryUsage := [] }

/-! ## Lemmas on association lists -/

theorem lookup_cons_self {β : Type} (tl : List (String × β)) (k : String) (v : β) :
    List.lookup k ((k, v) :: tl) = some v := by
  simp [List.lookup]

theorem lookup_cons_ne {β : Type} (tl : List (String × β)) (k k1 : String) (v : β)
    (h : k1 ≠ k) : List.lookup k1 ((k, v) :: tl) = List.lookup k1 tl := by
  have hb : (k1 == k) = false := by simpa using h
  simp [List.lookup, hb]

theorem lookup_setProp {β : Type} (o : List (String × β)) (k k1 : String) (v : β) :
    (setProp o k v).lookup k1 = if k1 = k then some v else o.lookup k1 := by
  induction o with
  | nil =>
    by_cases h : k1 = k
    · subst h
      simp [setProp, lookup_cons_self]
    · simp [setProp, lookup_cons_ne, h]
  | cons hd tl ih =>
    obtain ⟨a, b⟩ := hd
    by_cases hak : a = k
    · subst hak
      by_cases h : k1 = a
      · subst h
        simp [setProp, lookup_cons_self]
      · simp [setProp, lookup_cons_ne, h]
    · by_cases h1 : k1 = a
      · subst h1
        simp [setProp, lookup_cons_self, hak]
      · simp [setProp, lookup_cons_ne, hak, h1, ih]

theorem lookup_filter_ne {β : Type} (o : List (String × β)) (k k1 : String) :
    (o.filter fun kv => kv.1 != k).lookup k1 = if k1 = k then none else o.lookup k1 := by
  induction o with
  | nil => simp [List.lookup]
  | cons hd tl ih =>
    obtain ⟨a, b⟩ := hd
    by_cases hak : a = k
    · subst hak
      by_cases h : k1 = a
      · subst h
        simpa [List.filter_cons] using ih
      · simpa [List.filter_cons, lookup_cons_ne, h] using ih
    · by_cases h1 : k1 = a
      · subst h1
        simp [List.filter_cons, lookup_cons_self, hak]
      · simp [List.filter_cons, lookup_cons_ne, hak, h1, ih]

/-! ## The booking-dates handler: the interest count -/

theorem roundDouble_safe (x : Int) (h : x.natAbs ≤ 2 ^ 53) : roundDouble x = JsVal.num x := by
  unfold roundDouble
  rw [if_pos h]

theorem reducer_typed (a : Int) (bookedDate : JsObject) (r : Int × Bool)
    (h : Carries bookedDate r) :
    reducer (JsVal.num a) bookedDate = roundDouble (a + stepValue r) := by
  obtain ⟨p, b⟩ := r
  obtain ⟨hp, hb⟩ := h
  simp only at hp hb
  by_cases h0 : p = 0
  · subst h0
    cases b <;> simp [reducer, stepValue, hp, hb, truthy, jsAdd, jsToNumber, addNumbers]
  · have hne : (JsVal.num p == JsVal.num 0) = false := by simpa using h0
    simp [reducer, stepValue, hp, hb, hne, h0, jsAdd, jsToNumber, addNumbers]

theorem foldl_reducer_typed (bds : List JsObject) (rows : List (Int × Bool))
    (h : List.Forall₂ Carries bds rows) (a : Int) (hs : safeSums a rows = true) :
    bds.foldl reducer (JsVal.num a) = JsVal.num (a + (rows.map stepValue).sum) := by
  induction h generalizing a with
  | nil => simp
  | @cons bd r bds rows hbd _ ih =>
    simp only [safeSums, Bool.and_eq_true, decide_eq_true_eq] at hs
    rw [List.foldl_cons, reducer_typed a bd r hbd, roundDouble_safe _ hs.1, ih _ hs.2]
    simp [add_assoc]

theorem sum_stepValue (rows : List (Int × Bool)) :
    (rows.map stepValue).sum
      = ((rows.filter fun r => r.1 == 0 && !r.2).length : Int)
        + ((rows.filter fun r => r.1 != 0).map fun r => r.1).sum := by
  induction rows with
  | nil => simp
  | cons r rows ih =>
    obtain ⟨p, b⟩ := r
    by_cases h0 : p = 0
    · subst h0
      cases b
      · simp [stepValue, List.filter_cons, ih]
        ring
      · simp [stepValue, List.filter_cons, ih]
    · simp [stepValue, List.filter_cons, h0, ih]
      ring

theorem processItem_rows (item : Item) (bds : List JsObject)
    (hbd : item.lookup "booked_dates" = some (JsField.rows bds)) :
    processItem item
      = Except.ok (setProp (item.filter fun kv => kv.1 != "booked_dates") "nbInterestedBy"
          (JsField.prim (nbInterestedBy item bds))) := by
  simp only [processItem, hbd, nbInterestedBy]

/-- C1, as stated, fails: the places 9007199254740991, 0, 0 (all kept) count to
9007199254740993, which is no double; the additions of the handler round it to
9007199254740992. -/
theorem processItem_rounds_large_sum :
    processItem largeItem
        = Except.ok [("id", JsField.prim (JsVal.num 9)),
                     ("custom_display", JsField.prim (JsVal.bool false)),
                     ("nbInterestedBy", JsField.prim (JsVal.num 9007199254740992))]
    ∧ specInterestCount [(9007199254740991, false), (0, false), (0, false)] false 0
        = 9007199254740993 := by
  constructor
  · rfl
  · decide

/-- C1, amended: for a travel-date row whose booked dates each carry an integer
`booked_places` and a `deleted` flag, and whose `displayed_booked_seat` is an integer
when `custom_display` is set, the processed row holds `nbInterestedBy` = (number of
kept zero-place rows) + (sum of the non-zero places, deleted or not) + (the displayed
seats when custom display is set, else 0), provided every running total of the fold
and the final value stay within 2 ^ 53 in absolute value. -/
theorem processItem_nbInterestedBy (item : Item) (bds : List JsObject)
    (rows : List (Int × Bool)) (d : Int)
    (hbd : item.lookup "booked_dates" = some (JsField.rows bds))
    (hrows : List.Forall₂ Carries bds rows)
    (hd : (fieldOf item "custom_display").truthy = true →
      fieldOf item "displayed_booked_seat" = JsField.prim (JsVal.num d))
    (hsafe : safeSums 0 rows = true)
    (hfinal : (specInterestCount rows (fieldOf item "custom_display").truthy d).natAbs
      ≤ 2 ^ 53) :
    ∃ out, processItem item = Except.ok out
      ∧ nbInterestedByOf out = some (JsField.prim (JsVal.num
          (specInterestCount rows (fieldOf item "custom_display").truthy d))) := by
  have hfold := foldl_reducer_typed bds rows hrows 0 hsafe
  rw [sum_stepValue] at hfold
  refine ⟨_, processItem_rows item bds hbd, ?_⟩
  cases hc : (fieldOf item "custom_display").truthy with
  | false =>
    simp [nbInterestedByOf, nbInterestedBy, lookup_setProp, hc, hfold, specInterestCount]
  | true =>
    rw [hc] at hfinal
    simp only [specInterestCount, if_true] at hfinal
    simp only [nbInterestedByOf, nbInterestedBy, lookup_setProp, hc, hd hc, hfold, if_true,
      JsField.toPrimitive, jsAdd, jsToNumber, addNumbers, specInterestCount]
    rw [zero_add, roundDouble_safe _ hfinal]

/-- C1, worked examples: the bookings (0, kept), (2, kept), (0, deleted) give 3 without
custom display and 13 with 10 displayed seats; a deleted row of 3 places gives 3. -/
theorem processItem_nbInterestedBy_witness :
    (∃ out, processItem (exampleItem false) = Except.ok out
      ∧ nbInterestedByOf out = some (JsField.prim (JsVal.num 3)))
    ∧ (∃ out, processItem exampleDeletedItem = Except.ok out
      ∧ nbInterestedByOf out = some (JsField.prim (JsVal.num 3)))
    ∧ (∃ out, processItem (exampleItem true) = Except.ok out
      ∧ nbInterestedByOf out = some (JsField.prim (JsVal.num 13))) :=
  ⟨processItem_nbInterestedBy (exampleItem false) _ [(0, false), (2, false), (0, true)] 10
      rfl (by simp [Carries, prop, List.lookup]) (fun _ => rfl) (by decide) (by decide),
   processItem_nbInterestedBy exampleDeletedItem _ [(3, true)] 0
      rfl (by simp [Carries, prop, List.lookup]) (fun _ => rfl) (by decide) (by decide),
   processItem_nbInterestedBy (exampleItem true) _ [(0, false), (2, false), (0, true)] 10
      rfl (by simp [Carries, prop, List.lookup]) (fun _ => rfl) (by decide) (by decide)⟩

/-! ## The booking-dates handler: the selected columns -/

/-- C2: the query does not select `deleted`, so every projected booked date reads
`deleted` as `undefined`; end to end, a stored booked date with 0 places that is
soft-deleted is counted: its travel date gets `nbInterestedBy` = 1. -/
theorem handler_counts_deleted_interest :
    (∀ row, prop (selectBookedDate row) "deleted" = JsVal.undefined)
    ∧ prop storedDeletedInterest "deleted" = JsVal.bool true
    ∧ prop storedDeletedInterest "booked_places" = JsVal.num 0
    ∧ handler deletedInterestResult
        = Except.ok (Response.array
            [[("id", JsField.prim (JsVal.num 7)),
              ("custom_display", JsField.prim (JsVal.bool false)),
              ("nbInterestedBy", JsField.prim (JsVal.num 1))]]) := by
  refine ⟨?_, rfl, rfl, rfl⟩
  intro row
  have h : ∀ o : JsObject, List.lookup "deleted"
      (o.filter fun kv => bookedDatesSelect.contains kv.1) = none := by
    intro o
    induction o with
    | nil => simp [List.lookup]
    | cons hd tl ih =>
      obtain ⟨a, b⟩ := hd
      by_cases ha : a = "deleted"
      · subst ha
        simpa [List.filter_cons, bookedDatesSelect] using ih
      · by_cases hs : bookedDatesSelect.contains a = true
        · have hne : ("deleted" : String) ≠ a := fun hx => ha hx.symm
          simp only [List.filter_cons, hs, if_true]
          rw [lookup_cons_ne _ _ _ _ hne]
          exact ih
        · simp only [List.filter_cons, hs]
          exact ih
  unfold prop selectBookedDate
  rw [h row]

/-! ## The booking-dates handler: the frame -/

theorem processItem_frame (item : Item) (h : HasBookedDates item) :
    ∃ out, processItem item = Except.ok out ∧ RowFrame item out := by
  obtain ⟨bds, hbd⟩ := h
  refine ⟨_, processItem_rows item bds hbd, ?_, ?_, ?_⟩
  · simp [lookup_setProp, lookup_filter_ne]
  · exact ⟨JsField.prim (nbInterestedBy item bds), by simp [lookup_setProp]⟩
  · intro k h1 h2
    simp [lookup_setProp, lookup_filter_ne, h1, h2]

theorem mapProcess_frame (data : List Item) (h : ∀ item ∈ data, HasBookedDates item) :
    ∃ out, mapProcess data = Except.ok out ∧ List.Forall₂ RowFrame data out := by
  induction data with
  | nil => exact ⟨[], rfl, List.Forall₂.nil⟩
  | cons item tl ih =>
    obtain ⟨o, ho, hf⟩ := processItem_frame item (h item (List.mem_cons_self _ _))
    obtain ⟨os, hos, hfs⟩ := ih fun x hx => h x (List.mem_cons_of_mem _ hx)
    exact ⟨o :: os, by simp [mapProcess, ho, hos], List.Forall₂.cons hf hfs⟩

/-- C3: when the query succeeds (no error, `data` an array of rows that each carry
their nested `booked_dates`), the handler returns an array with one row per input row,
in the same order and of the same count, empty when the input is empty; each output
row has no `booked_dates`, has `nbInterestedBy`, and agrees with its input row on
every other property. -/
theorem handler_frame {ε : Type} (q : QueryResult ε) (data : List Item)
    (herr : q.error = none) (hdata : q.data = some data)
    (hrows : ∀ item ∈ data, HasBookedDates item) :
    ∃ out, handler q = Except.ok (Response.array out)
      ∧ out.length = data.length
      ∧ (data = [] → out = [])
      ∧ List.Forall₂ RowFrame data out := by
  obtain ⟨out, hout, hf⟩ := mapProcess_frame data hrows
  refine ⟨out, by simp [handler, herr, hdata, hout], hf.length_eq.symm, ?_, hf⟩
  intro hnil
  subst hnil
  cases hf
  rfl

/-- C3, worked example: two travel dates in, two processed rows out. -/
theorem handler_frame_witness :
    ∃ out, handler twoRowsResult = Except.ok (Response.array out)
      ∧ out.length = [exampleItem false, exampleDeletedItem].length
      ∧ ([exampleItem false, exampleDeletedItem] = [] → out = [])
      ∧ List.Forall₂ RowFrame [exampleItem false, exampleDeletedItem] out :=
  handler_frame twoRowsResult [exampleItem false, exampleDeletedItem] rfl rfl
    (by
      intro item hitem
      simp only [List.mem_cons, List.mem_singleton, List.not_mem_nil, or_false] at hitem
      rcases hitem with h | h
      · exact ⟨_, by rw [h]; rfl⟩
      · exact ⟨_, by rw [h]; rfl⟩)

/-! ## The booking-dates handler: the error object -/

/-- C4, as stated, fails: without an error the handler does not always return an
array; on `data` being `null`, and on a row without its `booked_dates` array, it throws
a TypeError. -/
theorem handler_throws_without_rows :
    handler ({ data := none, error := none } : QueryResult String)
        = Except.error JsError.typeError
    ∧ handler ({ data := some [[("id", JsField.prim (JsVal.num 7))]], error := none } :
          QueryResult String)
        = Except.error JsError.typeError :=
  ⟨rfl, rfl⟩

/-- C4, amended: the handler returns the object holding the raw error exactly when
the query reports an error, and then whatever `data` holds plays no part (no
aggregation runs); when the query reports no error the handler never returns an error
object: it returns an array, which it does on every array of rows that carry their
`booked_dates`, or it throws a TypeError. -/
theorem handler_error_iff {ε : Type} (q : QueryResult ε) :
    (∀ e, handler q = Except.ok (Response.errorObject e) ↔ q.error = some e)
    ∧ (∀ e, q.error = some e →
        ∀ data1, handler { data := data1, error := q.error } = Except.ok (Response.errorObject e))
    ∧ (q.error = none → ∀ e, handler q ≠ Except.ok (Response.errorObject e))
    ∧ (q.error = none → ∀ data, q.data = some data → (∀ item ∈ data, HasBookedDates item) →
        ∃ out, handler q = Except.ok (Response.array out))
    ∧ (q.error = none →
        (∃ out, handler q = Except.ok (Response.array out))
          ∨ handler q = Except.error JsError.typeError) := by
  have key : ∀ e, handler q = Except.ok (Response.errorObject e) ↔ q.error = some e := by
    intro e
    obtain ⟨data, error⟩ := q
    cases error with
    | some e1 => simp [handler]
    | none =>
      cases data with
      | none => simp [handler]
      | some d =>
        simp only [handler]
        cases mapProcess d <;> simp
  refine ⟨key, ?_, ?_, ?_, ?_⟩
  · intro e he data1
    simp [handler, he]
  · intro hnone e he
    rw [(key e).1 he] at hnone
    cases hnone
  · intro hnone data hdata hrows
    obtain ⟨out, hout, _⟩ := mapProcess_frame data hrows
    exact ⟨out, by simp [handler, hnone, hdata, hout]⟩
  · intro hnone
    obtain ⟨data, error⟩ := q
    simp only at hnone
    subst hnone
    cases data with
    | none => exact Or.inr rfl
    | some d =>
      simp only [handler]
      cases hm : mapProcess d with
      | error e =>
        cases e
        exact Or.inr rfl
      | ok out => exact Or.inl ⟨out, rfl⟩

/-- C4, worked example: a failed query gives the error object although its data
would make the aggregation throw. -/
theorem handler_error_iff_witness :
    handler failedResult = Except.ok (Response.errorObject "connection refused")
    ∧ mapProcess [[("id", JsField.prim (JsVal.num 7))]] = Except.error JsError.typeError :=
  ⟨((handler_error_iff failedResult).1 "connection refused").2 rfl, rfl⟩

/-! ## The search-data cache: entries -/

theorem entry_setEntry (s : SearchData) (k k1 : Key) (e : Entry) :
    (s.setEntry k e).entry k1 = if k1 = k then e else s.entry k1 := by
  cases k <;> cases k1 <;> simp [SearchData.setEntry, SearchData.entry]

theorem entry_fetchCall (s : SearchData) (k k1 : Key) :
    ((fetchCall k s).1).entry k1 = if k1 = k then (s.entry k).call else s.entry k1 := by
  unfold fetchCall Entry.call
  by_cases ht : (s.entry k).value.truthy = true
  · by_cases hk : k1 = k
    · simp [ht, hk]
    · simp [ht, hk]
  · simp [ht, entry_setEntry]

theorem entry_fetchSettle (s : SearchData) (k k1 : Key) (o : Outcome) :
    ((fetchSettle k o s).1).entry k1
      = if k1 = k then (s.entry k).settle o else s.entry k1 := by
  unfold fetchSettle Entry.settle
  cases o <;> simp [entry_setEntry]

theorem entry_clearSearchData (s : SearchData) (k : Key) :
    (clearSearchData s).entry k = (s.entry k).clear := by
  cases k <;> rfl

theorem entry_initializeSearchData (s : SearchData) (k : Key) :
    (initializeSearchData s).entry k = (s.entry k).call := by
  unfold initializeSearchData
  cases k <;> simp [entry_fetchCall]

theorem truthy_of_ne_null (c : Content) (h : c ≠ Content.null) : c.truthy = true := by
  cases c <;> simp [Content.truthy] at h ⊢

theorem eq_null_of_not_truthy (c : Content) (h : ¬ c.truthy = true) : c = Content.null := by
  cases c <;> simp [Content.truthy] at h ⊢

/-! ## The search-data cache: fetch once -/

/-- C5, as stated, fails: `first()` can resolve with `null`; after such a first call
of `fetchSearchFieldContent` the status is success, yet a second call sets the status
to pending and invokes the query again. -/
theorem fetch_null_queries_again :
    canResolve Key.searchFieldContent Content.null = true
    ∧ ((fetchSearchFieldContent (Outcome.resolved Content.null) SearchData.initial).1
        ).searchFieldContent.status = Status.success
    ∧ (fetchCall Key.searchFieldContent
        (fetchSearchFieldContent (Outcome.resolved Content.null) SearchData.initial).1).2
        = Started.awaiting
    ∧ ((fetchCall Key.searchFieldContent
        (fetchSearchFieldContent (Outcome.resolved Content.null) SearchData.initial).1).1
        ).searchFieldContent.status = Status.pending
    ∧ ((fetchCall Key.searchFieldContent
        (fetchSearchFieldContent (Outcome.resolved Content.null) SearchData.initial).1).1
        ).searchFieldContent.queries = 2 := by
  refine ⟨rfl, rfl, rfl, rfl, rfl⟩

/-- C5, amended: for each of the four fetches and every non-null value `d` the query
resolves with, a first call on an entry with value `null` (the idle entry in
particular) sets the status to pending and invokes the query once, then stores `d`, sets the status to
success and returns `d`; a second call, however its query would settle, returns `d`
and leaves the whole state unchanged: value and status as they were, no pending
status, no query invoked. -/
theorem fetch_once (s : SearchData) (k : Key) (d : Content)
    (hv : (s.entry k).value = Content.null) (hd : d ≠ Content.null) :
    (fetchCall k s).2 = Started.awaiting
    ∧ ((fetchCall k s).1.entry k).status = Status.pending
    ∧ ((fetchCall k s).1.entry k).queries = (s.entry k).queries + 1
    ∧ fetchEntry k (Outcome.resolved d) s = fetchSettle k (Outcome.resolved d) (fetchCall k s).1
    ∧ ((fetchEntry k (Outcome.resolved d) s).1.entry k).value = d
    ∧ ((fetchEntry k (Outcome.resolved d) s).1.entry k).status = Status.success
    ∧ (fetchEntry k (Outcome.resolved d) s).2 = d
    ∧ fetchCall k (fetchEntry k (Outcome.resolved d) s).1
        = ((fetchEntry k (Outcome.resolved d) s).1, Started.returned d)
    ∧ ∀ o, fetchEntry k o (fetchEntry k (Outcome.resolved d) s).1
        = ((fetchEntry k (Outcome.resolved d) s).1, d) := by
  have hcall2 : (fetchCall k s).2 = Started.awaiting := by
    simp [fetchCall, hv, Content.truthy]
  have hfetch : fetchEntry k (Outcome.resolved d) s
      = fetchSettle k (Outcome.resolved d) (fetchCall k s).1 := by
    simp [fetchEntry, fetchCall, hv, Content.truthy]
  have hval : ((fetchEntry k (Outcome.resolved d) s).1.entry k).value = d := by
    rw [hfetch, entry_fetchSettle]
    simp [Entry.settle]
  have hret : (fetchEntry k (Outcome.resolved d) s).2 = d := by
    rw [hfetch]
    rfl
  have hagain : fetchCall k (fetchEntry k (Outcome.resolved d) s).1
      = ((fetchEntry k (Outcome.resolved d) s).1, Started.returned d) := by
    simp [fetchCall, hval, truthy_of_ne_null d hd]
  refine ⟨hcall2, ?_, ?_, hfetch, hval, ?_, hret, hagain, ?_⟩
  · rw [entry_fetchCall]
    simp [Entry.call, hv, Content.truthy]
  · rw [entry_fetchCall]
    simp [Entry.call, hv, Content.truthy]
  · rw [hfetch, entry_fetchSettle]
    simp [Entry.settle]
  · intro o
    unfold fetchEntry at hagain ⊢
    rw [hagain]

/-- C5, worked example: `fetchDestinations` on the initial state with an array. -/
theorem fetch_once_witness :
    (fetchCall Key.destinations SearchData.initial).2 = Started.awaiting
    ∧ (fetchDestinations (Outcome.resolved peru) SearchData.initial).2 = peru
    ∧ fetchCall Key.destinations (fetchDestinations (Outcome.resolved peru) SearchData.initial).1
        = ((fetchDestinations (Outcome.resolved peru) SearchData.initial).1, Started.returned peru) :=
  have h := fetch_once SearchData.initial Key.destinations peru rfl (by simp [peru])
  ⟨h.1, h.2.2.2.2.2.2.1, h.2.2.2.2.2.2.2.1⟩

/-! ## The search-data cache: failure and retry -/

/-- C6, as stated, fails: a call of `fetchDestinations` made on a `null` value, whose
query rejects after the query of an overlapping call has resolved, returns `null` and
sets the status to error, but the value is not `null` then, and the next call, made
while the status is error, returns the cached value without invoking the query. -/
theorem rejection_after_overlapping_success :
    ((fetchCall Key.destinations SearchData.initial).1.destinations.value = Content.null
      ∧ (fetchCall Key.destinations
          (fetchCall Key.destinations SearchData.initial).1).2 = Started.awaiting)
    ∧ (fetchSettle Key.destinations (Outcome.rejected "network") secondStillAwaiting).2
        = Content.null
    ∧ ((fetchSettle Key.destinations (Outcome.rejected "network")
          secondStillAwaiting).1).destinations.status = Status.error
    ∧ ((fetchSettle Key.destinations (Outcome.rejected "network")
          secondStillAwaiting).1).destinations.value = peru
    ∧ (fetchCall Key.destinations
        (fetchSettle Key.destinations (Outcome.rejected "network") secondStillAwaiting).1).2
        = Started.returned peru
    ∧ ((fetchCall Key.destinations
        (fetchSettle Key.destinations (Outcome.rejected "network")
          secondStillAwaiting).1).1).destinations.queries = 2 := by
  refine ⟨⟨rfl, rfl⟩, rfl, rfl, rfl, rfl, rfl⟩

/-- C6, amended: for each of the four fetches, a call made while the value of the entry
is `null` sets the status to pending and invokes the query; when that query rejects,
in whatever state `s1` the cache is by then, the fetch returns `null`, sets the status
to error and does not touch the value, which is therefore still `null` when no
overlapping call has stored one; and the next call of the same fetch on that state,
value `null` and status error, sets the status to pending and invokes the query
again, before any outcome is known. -/
theorem fetch_rejected (s s1 : SearchData) (k : Key) (error : String)
    (hv : (s.entry k).value = Content.null) (hv1 : (s1.entry k).value = Content.null) :
    ((fetchCall k s).2 = Started.awaiting
      ∧ ((fetchCall k s).1.entry k).status = Status.pending
      ∧ ((fetchCall k s).1.entry k).queries = (s.entry k).queries + 1)
    ∧ (∀ s2, (fetchSettle k (Outcome.rejected error) s2).2 = Content.null
      ∧ ((fetchSettle k (Outcome.rejected error) s2).1.entry k).status = Status.error
      ∧ ((fetchSettle k (Outcome.rejected error) s2).1.entry k).value = (s2.entry k).value)
    ∧ ((fetchSettle k (Outcome.rejected error) s1).1.entry k).value = Content.null
    ∧ (fetchCall k (fetchSettle k (Outcome.rejected error) s1).1).2 = Started.awaiting
    ∧ ((fetchCall k (fetchSettle k (Outcome.rejected error) s1).1).1.entry k).status
        = Status.pending
    ∧ ((fetchCall k (fetchSettle k (Outcome.rejected error) s1).1).1.entry k).queries
        = ((fetchSettle k (Outcome.rejected error) s1).1.entry k).queries + 1 := by
  have hcall : ∀ t : SearchData, (t.entry k).value = Content.null →
      (fetchCall k t).2 = Started.awaiting
        ∧ ((fetchCall k t).1.entry k).status = Status.pending
        ∧ ((fetchCall k t).1.entry k).queries = (t.entry k).queries + 1 := by
    intro t ht
    refine ⟨by simp [fetchCall, ht, Content.truthy], ?_, ?_⟩
    · rw [entry_fetchCall]
      simp [Entry.call, ht, Content.truthy]
    · rw [entry_fetchCall]
      simp [Entry.call, ht, Content.truthy]
  have hsettle : ∀ s2, (fetchSettle k (Outcome.rejected error) s2).2 = Content.null
      ∧ ((fetchSettle k (Outcome.rejected error) s2).1.entry k).status = Status.error
      ∧ ((fetchSettle k (Outcome.rejected error) s2).1.entry k).value = (s2.entry k).value := by
    intro s2
    refine ⟨rfl, ?_, ?_⟩
    · rw [entry_fetchSettle]
      simp [Entry.settle]
    · rw [entry_fetchSettle]
      simp [Entry.settle]
  have hval : ((fetchSettle k (Outcome.rejected error) s1).1.entry k).value = Content.null := by
    rw [(hsettle s1).2.2, hv1]
  exact ⟨hcall s hv, hsettle, hval, hcall _ hval⟩

/-- C6, worked example: `fetchContentText` called on the initial state, its query
rejecting while nothing else has happened. -/
theorem fetch_rejected_witness :
    (fetchSettle Key.contentText (Outcome.rejected "network")
        (fetchCall Key.contentText SearchData.initial).1).2 = Content.null
    ∧ ((fetchSettle Key.contentText (Outcome.rejected "network")
        (fetchCall Key.contentText SearchData.initial).1).1.entry Key.contentText).status
        = Status.error
    ∧ (fetchCall Key.contentText (fetchSettle Key.contentText (Outcome.rejected "network")
        (fetchCall Key.contentText SearchData.initial).1).1).2 = Started.awaiting :=
  have h := fetch_rejected SearchData.initial (fetchCall Key.contentText SearchData.initial).1
    Key.contentText "network" rfl rfl
  ⟨(h.2.1 _).1, (h.2.1 _).2.1, h.2.2.2.1⟩

/-! ## The search-data cache: value and status -/

theorem settled_call (e : Entry) (h : e.Settled) (h0 : e.inFlight = 0) : e.call.Settled := by
  unfold Entry.call
  by_cases ht : e.value.truthy = true
  · simpa [ht] using h
  · have hnull := eq_null_of_not_truthy e.value ht
    simp [Entry.Settled, h0, hnull, Content.truthy]

theorem settled_settle (e : Entry) (o : Outcome) (h : e.Settled) (h0 : e.inFlight ≠ 0) :
    (e.settle o).Settled := by
  obtain ⟨h1, h2, _⟩ := h
  have hone : e.inFlight = 1 := by omega
  cases o with
  | resolved data => simp [Entry.settle, Entry.Settled, hone]
  | rejected error => simp [Entry.settle, Entry.Settled, hone, h2 hone]

theorem settled_clear (e : Entry) (h : e.Settled) : e.clear.Settled := by
  obtain ⟨h1, _, _⟩ := h
  simp [Entry.clear, Entry.Settled, h1]

theorem settled_step (s : SearchData) (e : Event) (h : ∀ k, (s.entry k).Settled)
    (hno : noOverlap s e = true) : ∀ k, ((step s e).entry k).Settled := by
  intro k1
  cases e with
  | fetch k =>
    simp only [step, entry_fetchCall]
    by_cases hk : k1 = k
    · subst hk
      simpa using settled_call _ (h k1) (by simpa [noOverlap] using hno)
    · simpa [hk] using h k1
  | settle k o =>
    simp only [step]
    by_cases h0 : (s.entry k).inFlight = 0
    · simpa [h0] using h k1
    · simp only [h0, if_false, entry_fetchSettle]
      by_cases hk : k1 = k
      · subst hk
        simpa using settled_settle _ o (h k1) h0
      · simpa [hk] using h k1
  | init =>
    simp only [step, entry_initializeSearchData]
    apply settled_call _ (h k1)
    simp only [noOverlap, Bool.and_eq_true, beq_iff_eq] at hno
    obtain ⟨⟨⟨ha, hb⟩, hc⟩, hd⟩ := hno
    cases k1
    · exact ha
    · exact hb
    · exact hc
    · exact hd
  | clear =>
    simp only [step, entry_clearSearchData]
    exact settled_clear _ (h k1)

theorem settled_run (evs : List Event) (s : SearchData) (h : ∀ k, (s.entry k).Settled)
    (hseq : sequential evs s = true) : ∀ k, ((run evs s).entry k).Settled := by
  induction evs generalizing s with
  | nil => simpa [run] using h
  | cons e evs ih =>
    simp only [sequential, Bool.and_eq_true] at hseq
    exact ih (step s e) (settled_step s e h hseq.1) hseq.2

theorem settled_initial (k : Key) : (SearchData.initial.entry k).Settled := by
  cases k <;> simp [SearchData.initial, SearchData.entry, Entry.Settled]

theorem value_step (s : SearchData) (e : Event) (k : Key)
    (hch : ((step s e).entry k).value ≠ (s.entry k).value) :
    ((step s e).entry k).value = Content.null
      ∨ ((step s e).entry k).status = Status.success := by
  cases e with
  | fetch k1 =>
    exfalso
    apply hch
    simp only [step, entry_fetchCall, Entry.call]
    by_cases hk : k = k1
    · subst hk
      by_cases ht : (s.entry k).value.truthy = true <;> simp [ht]
    · simp [hk]
  | settle k1 o =>
    by_cases h0 : (s.entry k1).inFlight = 0
    · exfalso
      apply hch
      simp [step, h0]
    · by_cases hk : k = k1
      · subst hk
        cases o with
        | resolved data =>
          right
          simp [step, h0, entry_fetchSettle, Entry.settle]
        | rejected error =>
          exfalso
          apply hch
          simp [step, h0, entry_fetchSettle, Entry.settle]
      · exfalso
        apply hch
        simp [step, h0, entry_fetchSettle, hk]
  | init =>
    exfalso
    apply hch
    simp only [step, entry_initializeSearchData, Entry.call]
    by_cases ht : (s.entry k).value.truthy = true <;> simp [ht]
  | clear =>
    left
    simp [step, entry_clearSearchData, Entry.clear]

/-- C7, as stated, fails: after two overlapping calls of `fetchDestinations` whose
first query resolves and whose second query rejects, the entry holds a non-null
value with status error. -/
theorem overlapping_fetches_break_invariant :
    (run overlappingFetches SearchData.initial).destinations.value = peru
    ∧ peru ≠ Content.null
    ∧ (run overlappingFetches SearchData.initial).destinations.status = Status.error := by
  refine ⟨rfl, ?_, rfl⟩
  simp [peru]

/-- C7, amended: in every state reached from the initial state by fetch calls, query
settlements, `initializeSearchData` and `clearSearchData` in which no fetch of an entry
is called while an earlier query of that entry is still in flight, every entry with
a non-null value has status success; and in every state whatsoever, an event that
changes the value of an entry either sets it to `null` or leaves the status of that
entry at success. -/
theorem value_implies_success (evs : List Event)
    (hseq : sequential evs SearchData.initial = true) :
    (∀ k, ((run evs SearchData.initial).entry k).value ≠ Content.null →
        ((run evs SearchData.initial).entry k).status = Status.success)
    ∧ (∀ s e k, ((step s e).entry k).value ≠ (s.entry k).value →
        ((step s e).entry k).value = Content.null
          ∨ ((step s e).entry k).status = Status.success) :=
  ⟨fun k => (settled_run evs SearchData.initial settled_initial hseq k).2.2,
   fun s e k => value_step s e k⟩

/-- C7, worked example: a sequential run with an initialisation, a rejected and a
`null` settlement, a clear and two further fetches. -/
theorem value_implies_success_witness :
    sequential sequentialRun SearchData.initial = true
    ∧ ∀ k, ((run sequentialRun SearchData.initial).entry k).value ≠ Content.null →
        ((run sequentialRun SearchData.initial).entry k).status = Status.success :=
  ⟨by decide, (value_implies_success sequentialRun (by decide)).1⟩

/-! ## The search-data cache: clearing -/

/-- C8: whatever the prior state, `clearSearchData` leaves each of the four entries
with value `null` and status idle; it is idempotent; and the next call of any fetch
after it sets the status to pending and invokes the query again. -/
theorem clearSearchData_resets (s : SearchData) :
    (∀ k, ((clearSearchData s).entry k).value = Content.null
        ∧ ((clearSearchData s).entry k).status = Status.idle)
    ∧ clearSearchData (clearSearchData s) = clearSearchData s
    ∧ ∀ k, (fetchCall k (clearSearchData s)).2 = Started.awaiting
        ∧ ((fetchCall k (clearSearchData s)).1.entry k).status = Status.pending
        ∧ ((fetchCall k (clearSearchData s)).1.entry k).queries
            = ((clearSearchData s).entry k).queries + 1 := by
  refine ⟨?_, rfl, ?_⟩
  · intro k
    rw [entry_clearSearchData]
    exact ⟨rfl, rfl⟩
  · intro k
    have hv : ((clearSearchData s).entry k).value = Content.null := by
      rw [entry_clearSearchData]
      rfl
    refine ⟨by simp [fetchCall, hv, Content.truthy], ?_, ?_⟩
    · rw [entry_fetchCall]
      simp [Entry.call, hv, Content.truthy]
    · rw [entry_fetchCall]
      simp [Entry.call, hv, Content.truthy]

/-! ## The performance monitor: the summary -/

theorem foldl_add_eq_sum (xs : List ℚ) (a : ℚ) :
    xs.foldl (fun a b => a + b) a = a + xs.sum := by
  induction xs generalizing a with
  | nil => simp
  | cons x xs ih => simp [List.foldl_cons, ih, add_assoc]

theorem average_eq_mean (xs : List ℚ) :
    (if xs.length > 0 then reduceAverage xs else 0)
      = if xs = [] then 0 else arithmeticMean xs := by
  cases xs with
  | nil => simp
  | cons x xs => simp [reduceAverage, arithmeticMean, foldl_add_eq_sum]

theorem samplesOf_pushSample {ν : Type} (times : List (String × List ν)) (name name1 : String)
    (t : ν) :
    samplesOf (pushSample times name t) name1
      = if name1 = name then samplesOf times name ++ [t] else samplesOf times name1 := by
  unfold pushSample
  cases hl : times.lookup name with
  | none =>
    by_cases h : name1 = name
    · subst h
      simp [samplesOf, lookup_setProp, hl]
    · simp [samplesOf, lookup_setProp, h]
  | some xs =>
    by_cases h : name1 = name
    · subst h
      simp [samplesOf, lookup_setProp, hl]
    · simp [samplesOf, lookup_setProp, h]

theorem average_guard {ν : Type} [Zero ν] [Add ν] [Div ν] [NatCast ν] (xs : List ν) :
    (if xs.length > 0 then reduceAverage xs else 0)
      = if xs.isEmpty then 0 else reduceAverage xs := by
  cases xs with
  | nil => simp
  | cons x xs => simp

/-- C9, as stated, fails: the summary divides doubles, so an average is the rounded
quotient and not always the arithmetic mean; the render samples 10, 10, 11 average to
the double 5817149518686891 * 2 ^ (-49), printed 10.333333333333334, and not to 31/3. -/
theorem average_is_rounded :
    (roundingExample.componentRenderTimes.map Prod.snd).flatten.map Dbl.toRat
        = [some 10, some 10, some 11]
    ∧ (getPerformanceSummary roundingExample).averageComponentRenderTime
        = Dbl.fin 5817149518686891 (-49)
    ∧ Dbl.toRat (getPerformanceSummary roundingExample).averageComponentRenderTime
        ≠ some (arithmeticMean [10, 10, 11]) := by
  have hs : roundingExample.componentRenderTimes
      = [("Hero", [Dbl.fin 5 1, Dbl.fin 5 1, Dbl.fin 11 0])] := by rfl
  have ha : (getPerformanceSummary roundingExample).averageComponentRenderTime
      = Dbl.fin 5817149518686891 (-49) := by rfl
  refine ⟨?_, ha, ?_⟩
  · rw [hs]
    simp [Dbl.toRat]
    norm_num
  · rw [ha]
    simp [Dbl.toRat, arithmeticMean]
    norm_num

/-- C9, amended: each average of the summary is the sum of its samples, added from 0
in their order, divided by their number, both in the arithmetic of the samples (for
doubles: rounded), over the stored page-load times, the render samples of all
components and the API samples of all names, and it is 0, whatever the division,
when there is no sample; in exact arithmetic this is the arithmetic mean; the
summary of the empty metrics is 0 in every field; and the render samples 10, 20, 30
of one component average to 20 in doubles. -/
theorem getPerformanceSummary_means :
    (∀ (ν : Type) [Zero ν] [Add ν] [Div ν] [NatCast ν] (m : Metrics ν),
      (getPerformanceSummary m).averagePageLoadTime
          = (if (m.pageLoadTimes.map Prod.snd).isEmpty then 0
             else reduceAverage (m.pageLoadTimes.map Prod.snd))
      ∧ (getPerformanceSummary m).averageComponentRenderTime
          = (if (m.componentRenderTimes.map Prod.snd).flatten.isEmpty then 0
             else reduceAverage (m.componentRenderTimes.map Prod.snd).flatten)
      ∧ (getPerformanceSummary m).averageApiCallTime
          = (if (m.apiCallTimes.map Prod.snd).flatten.isEmpty then 0
             else reduceAverage (m.apiCallTimes.map Prod.snd).flatten))
    ∧ (∀ m : Metrics ℚ,
      (getPerformanceSummary m).averagePageLoadTime
          = (if m.pageLoadTimes.map Prod.snd = [] then 0
             else arithmeticMean (m.pageLoadTimes.map Prod.snd))
      ∧ (getPerformanceSummary m).averageComponentRenderTime
          = (if (m.componentRenderTimes.map Prod.snd).flatten = [] then 0
             else arithmeticMean (m.componentRenderTimes.map Prod.snd).flatten)
      ∧ (getPerformanceSummary m).averageApiCallTime
          = (if (m.apiCallTimes.map Prod.snd).flatten = [] then 0
             else arithmeticMean (m.apiCallTimes.map Prod.snd).flatten))
    ∧ ((getPerformanceSummary (Metrics.empty : Metrics Dbl)).averagePageLoadTime = 0
      ∧ (getPerformanceSummary (Metrics.empty : Metrics Dbl)).averageComponentRenderTime = 0
      ∧ (getPerformanceSummary (Metrics.empty : Metrics Dbl)).averageApiCallTime = 0
      ∧ (getPerformanceSummary (Metrics.empty : Metrics Dbl)).totalApiCalls = 0
      ∧ (getPerformanceSummary (Metrics.empty : Metrics Dbl)).totalComponents = 0)
    ∧ (renderExample.componentRenderTimes = [("Hero", [10, 20, 30])]
      ∧ (getPerformanceSummary renderExample).averageComponentRenderTime = 20) := by
  refine ⟨?_, ?_, ?_, ?_⟩
  · intro ν _ _ _ _ m
    exact ⟨average_guard _, average_guard _, average_guard _⟩
  · intro m
    exact ⟨average_eq_mean _, average_eq_mean _, average_eq_mean _⟩
  · exact ⟨rfl, rfl, rfl, rfl, rfl⟩
  · exact ⟨rfl, rfl⟩

/-- C9, worked example: the render samples 10, 20, 30 average to 20 through the
general equation. -/
theorem getPerformanceSummary_means_witness :
    (getPerformanceSummary renderExample).averageComponentRenderTime
      = reduceAverage [(10 : Dbl), 20, 30]
    ∧ reduceAverage [(10 : Dbl), 20, 30] = 20 :=
  ⟨(getPerformanceSummary_means.1 Dbl renderExample).2.1, rfl⟩

/-! ## The performance monitor: what a step keeps -/

/-- C10, as stated, fails: the mounted callback of `trackPageLoad` for a page that
already has a load time replaces it; the sample 100 stored under `home` is gone. -/
theorem trackPageLoad_replaces :
    pageExample.pageLoadTimes = [("home", 100)]
    ∧ (trackPageLoad "home" 200 250 pageExample).pageLoadTimes = [("home", 50)] := by
  constructor
  · simp [pageExample, trackPageLoad, setProp, Metrics.empty]
  · simp [pageExample, trackPageLoad, setProp, Metrics.empty]
    norm_num

/-- C10, amended: for every metrics state and every tracking step other than
`clearMetrics`, each render sample and each API sample recorded before the step is
still there afterwards under the same name at the same position, and a tracked call
that fails leaves the metrics as they were; each page keeps its single load time
unless the step is the mounted callback of `trackPageLoad` for that very page, which
replaces it by the new load time. -/
theorem trackStep_keeps {ν ε ρ : Type} [Sub ν] (m : Metrics ν) (st : TrackStep ν ε ρ) :
    (∀ (name : String) (i : Nat) (x : ν), (samplesOf m.componentRenderTimes name)[i]? = some x →
        (samplesOf (st.apply m).componentRenderTimes name)[i]? = some x)
    ∧ (∀ (name : String) (i : Nat) (x : ν), (samplesOf m.apiCallTimes name)[i]? = some x →
        (samplesOf (st.apply m).apiCallTimes name)[i]? = some x)
    ∧ (∀ apiName startTime now error, st = TrackStep.apiCall apiName startTime now (Except.error error) →
        st.apply m = m)
    ∧ (∀ page x, m.pageLoadTimes.lookup page = some x →
        (∀ startTime now, st ≠ TrackStep.pageLoad page startTime now) →
        (st.apply m).pageLoadTimes.lookup page = some x)
    ∧ (∀ page startTime now, st = TrackStep.pageLoad page startTime now →
        (st.apply m).pageLoadTimes.lookup page = some (now - startTime)) := by
  have hkeep : ∀ (times : List (String × List ν)) (name0 name : String) (t : ν) (i : Nat) (x : ν),
      (samplesOf times name)[i]? = some x →
      (samplesOf (pushSample times name0 t) name)[i]? = some x := by
    intro times name0 name t i x hx
    rw [samplesOf_pushSample]
    by_cases h : name = name0
    · subst h
      simp only [if_true]
      have hi : i < (samplesOf times name).length := by
        by_contra hlt
        rw [List.getElem?_eq_none (by omega)] at hx
        cases hx
      rw [List.getElem?_append_left hi]
      exact hx
    · simpa [h] using hx
  refine ⟨?_, ?_, ?_, ?_, ?_⟩
  · intro name i x hx
    cases st with
    | pageLoad pageName startTime now => exact hx
    | componentRender componentName startTime now => exact hkeep _ _ _ _ _ _ hx
    | apiCall apiName startTime now result => cases result <;> exact hx
    | memoryUsage context memory => cases memory <;> exact hx
  · intro name i x hx
    cases st with
    | pageLoad pageName startTime now => exact hx
    | componentRender componentName startTime now => exact hx
    | apiCall apiName startTime now result =>
      cases result with
      | error e => exact hx
      | ok r => exact hkeep _ _ _ _ _ _ hx
    | memoryUsage context memory => cases memory <;> exact hx
  · intro apiName startTime now error hst
    subst hst
    rfl
  · intro page x hx hne
    cases st with
    | pageLoad pageName startTime now =>
      have hp : page ≠ pageName := by
        intro h
        subst h
        exact hne startTime now rfl
      simp [TrackStep.apply, trackPageLoad, lookup_setProp, hp, hx]
    | componentRender componentName startTime now => exact hx
    | apiCall apiName startTime now result => cases result <;> exact hx
    | memoryUsage context memory => cases memory <;> exact hx
  · intro page startTime now hst
    subst hst
    simp [TrackStep.apply, trackPageLoad, lookup_setProp]

/-- C10, worked example: a third render sample keeps the two earlier ones in place,
a failed API call changes nothing, and tracking another page keeps the time of `home`. -/
theorem trackStep_keeps_witness :
    (samplesOf (trackComponentRender "Hero" 0 30 mixedExample).componentRenderTimes "Hero")[1]?
        = some 20
    ∧ (trackApiCall "dates" 0 5 (Except.error "boom" : Except String Unit) mixedExample).1
        = mixedExample
    ∧ (trackPageLoad "about" 0 7 mixedExample).pageLoadTimes.lookup "home" = some 100 :=
  ⟨(trackStep_keeps mixedExample
      (TrackStep.componentRender "Hero" 0 30 : TrackStep ℚ String Unit)).1 "Hero" 1 20 rfl,
   (trackStep_keeps mixedExample
      (TrackStep.apiCall "dates" 0 5 (Except.error "boom") : TrackStep ℚ String Unit)).2.2.1
      "dates" 0 5 "boom" rfl,
   (trackStep_keeps mixedExample
      (TrackStep.pageLoad "about" 0 7 : TrackStep ℚ String Unit)).2.2.2.1 "home" 100 rfl
      (by intro startTime now h; exact absurd (TrackStep.pageLoad.inj h).1 (by decide))⟩

end Odysway
